import Mathlib

/-!
Shallow embedding of `src/index.js`, a minimal Express/PostgreSQL HTTP
service for IoT sensor readings.  The seven route handlers are embedded as
pure Lean functions over an explicit store state (`DB`).  Modelling
conventions:

* JavaScript `undefined` body/query fields are `Option` values; the JS
  truthiness test `!x` on a string field is `falsy` (absent or empty).
* The PostgreSQL store is a pair of lists in insertion order.  `SELECT`
  without `ORDER BY` returns rows in list order (the code reads `rows[0]`
  of such a query in the login handler); `ORDER BY timestamp` is
  `List.mergeSort` over the filtered rows.  A store/connectivity failure
  is the `storeErr` argument: `some e` means the first `pool.query` call
  rejects with message `e`, which the catch block of the handler receives.
* `bcryptjs` is external library code, modelled abstractly: a hash value
  `HashedPw` records the cost, a caller-chosen salt and the plaintext, and
  `bcryptCompare` re-derives the comparison exactly as bcrypt does from
  the salt stored inside the hash.  Its serialized (stored) form
  `HashedPw.render` is the `$2b$cost$salt$...` string, which is never
  equal to the plaintext.  `bcrypt.hash(undefined, 10)` rejects with an
  "Illegal arguments" error; in the two signup handlers this call sits
  *before* the `try` block, so that rejection escapes the handler, which
  the `HandlerOutcome.uncaught` constructor records.
* Timestamps are milliseconds since the Unix epoch (UTC), as `Nat`.
  `new Date(d).setUTCHours(0,0,0,0)` floors to the UTC day start;
  `setUTCHours(23,59,59,999)` is that plus 86399999 ms.  A `date` query
  parameter is `none` (absent), `some none` (present but unparseable:
  `new Date` yields Invalid Date and `toISOString()` throws a RangeError
  inside the `try`), or `some (some t)` (parses to instant `t`).
-/

/-- Model of a bcrypt hash value: cost factor, embedded salt, and the
hashed plaintext.  bcrypt stores the salt inside the hash string and
`compare` re-derives the hash from it. -/
structure HashedPw where
  cost : Nat
  salt : Nat
  text : String
deriving DecidableEq, Repr

/-- Model of `bcrypt.hash(password, 10)` with a caller-supplied random salt
(the cost factor 10 is fixed at both call sites, lines 28 and 184). -/
def bcryptHash (password : String) (salt : Nat) : HashedPw :=
  { cost := 10, salt := salt, text := password }

/-- Model of `bcrypt.compare(password, hash)` (line 67): re-hash the
candidate with the salt embedded in `hash` and compare. -/
def bcryptCompare (password : String) (h : HashedPw) : Bool :=
  bcryptHash password h.salt == h

/-- Serialized form of a hash, the string actually stored in the
`users.password` column: `$2b$<cost>$<salt>$<derived text>`. -/
def HashedPw.render (h : HashedPw) : String :=
  "$2b$" ++ toString h.cost ++ "$" ++ toString h.salt ++ "$" ++ h.text

/-- Row of the `users` table: `users(device_id UNIQUE, email, password)`.
`email` is `Option` because node-postgres turns an `undefined` parameter
into SQL `NULL`. -/
structure User where
  device_id : String
  email : Option String
  password : HashedPw
deriving DecidableEq, Repr

/-- Row of the `sensor_data` table:
`sensor_data(device_id, temperature, humidity, air_quality, lpg_level, timestamp)`. -/
structure SensorReading where
  device_id : String
  temperature : Int
  humidity : Int
  air_quality : Int
  lpg_level : Int
  timestamp : Nat
deriving DecidableEq, Repr

/-- The relational store: both tables, rows in insertion order. -/
structure DB where
  users : List User
  sensor_data : List SensorReading
deriving DecidableEq, Repr

/-- A `User` with the password field destructured away, as in
`const { password: _, ...userSafeData } = result.rows[0]`
(lines 43, 72, 196).  The type has no password field at all. -/
structure UserSafe where
  device_id : String
  email : Option String
deriving DecidableEq, Repr

/-- Strip the password from a user row. -/
def User.safe (u : User) : UserSafe :=
  { device_id := u.device_id, email := u.email }

/-- A JSON response: HTTP status plus the fields the handlers ever emit.
`message` is the `message`/`error` text, `errorDetail` is the extra
`error: error.message` field only the login catch block adds (line 76). -/
structure Resp where
  status : Nat
  message : Option String
  errorDetail : Option String
  user : Option UserSafe
  device_id : Option String
  data : Option SensorReading
  rows : Option (List SensorReading)
deriving DecidableEq, Repr

/-- Response carrying only a status and a text body. -/
def msgResp (status : Nat) (m : String) : Resp :=
  { status := status, message := some m, errorDetail := none, user := none,
    device_id := none, data := none, rows := none }

/-- Outcome of a handler whose body can throw outside the `try` block:
either an HTTP response, or a rejection that escapes the handler. -/
inductive HandlerOutcome where
  | resp (r : Resp)
  | uncaught (msg : String)
deriving DecidableEq, Repr

/-- JS truthiness test `!x` for an optional string field: true when the
field is absent (`undefined`) or the empty string. -/
def falsy : Option String → Bool
  | none => true
  | some s => s == ""

/-- Comparator for `ORDER BY timestamp DESC`. -/
def descByTimestamp (a b : SensorReading) : Bool :=
  decide (b.timestamp ≤ a.timestamp)

/-- Comparator for `ORDER BY timestamp ASC`. -/
def ascByTimestamp (a b : SensorReading) : Bool :=
  decide (a.timestamp ≤ b.timestamp)

/-- `startDate.setUTCHours(0, 0, 0, 0)`: floor an instant to the start of
its UTC day (line 150). -/
def startOfUTCDay (t : Nat) : Nat := t - t % 86400000

/-- `endDate.setUTCHours(23, 59, 59, 999)`: last millisecond of the UTC
day containing `t` (line 152). -/
def endOfUTCDay (t : Nat) : Nat := startOfUTCDay t + 86399999

/-- `PUT /api/signup` (lines 21-49), the spec operation UpdateUserCredentials.
Validates `device_id`, hashes the password (outside the `try`: a missing
password makes `bcrypt.hash` reject and the rejection escapes), then runs
`UPDATE users SET email,password WHERE device_id` and 404s when no row
matched. -/
def updateUserCredentials (db : DB) (storeErr : Option String)
    (email password device_id : Option String) (salt : Nat) :
    HandlerOutcome × DB :=
  if falsy device_id then
    (.resp (msgResp 400 "Device ID is required"), db)
  else
    match password with
    | none => (.uncaught "Illegal arguments: undefined, number", db)
    | some pw =>
      let hashedPassword := bcryptHash pw salt
      match storeErr with
      | some _ => (.resp (msgResp 500 "Error updating user"), db)
      | none =>
        let dev := device_id.getD ""
        if db.users.any (fun u => u.device_id == dev) then
          let users' := db.users.map (fun u =>
            if u.device_id == dev then
              { u with email := email, password := hashedPassword }
            else u)
          let updated : User :=
            { device_id := dev, email := email, password := hashedPassword }
          (.resp { status := 200, message := some "User updated successfully",
                   errorDetail := none, user := some updated.safe,
                   device_id := none, data := none, rows := none },
           { db with users := users' })
        else
          (.resp (msgResp 404 "Device ID not found"), db)

/-- `POST /api/signup/admin` (lines 177-202), the spec operation AdminUpsertUser.
Same validation and hashing as `updateUserCredentials`, then
`INSERT ... ON CONFLICT (device_id) DO UPDATE`. -/
def adminUpsertUser (db : DB) (storeErr : Option String)
    (email password device_id : Option String) (salt : Nat) :
    HandlerOutcome × DB :=
  if falsy device_id then
    (.resp (msgResp 400 "Device ID is required"), db)
  else
    match password with
    | none => (.uncaught "Illegal arguments: undefined, number", db)
    | some pw =>
      let hashedPassword := bcryptHash pw salt
      match storeErr with
      | some _ => (.resp (msgResp 500 "Error processing signup"), db)
      | none =>
        let dev := device_id.getD ""
        let row : User := { device_id := dev, email := email, password := hashedPassword }
        let users' :=
          if db.users.any (fun u => u.device_id == dev) then
            db.users.map (fun u =>
              if u.device_id == dev then
                { u with email := email, password := hashedPassword }
              else u)
          else
            db.users ++ [row]
        (.resp { status := 200, message := some "User created/updated successfully",
                 errorDetail := none, user := some row.safe,
                 device_id := none, data := none, rows := none },
         { db with users := users' })

/-- `POST /api/login` (lines 52-78).  Validates presence of both fields,
selects all users with the given email (no ORDER BY: insertion order) and
reads `rows[0]`, compares the password, and answers 401 with the same
body for "no such email" and "wrong password".  Its `catch` block puts
`error.message` into the response (line 76). -/
def login (db : DB) (storeErr : Option String)
    (email password : Option String) : Resp :=
  if falsy email || falsy password then
    msgResp 400 "Missing email or password"
  else
    match storeErr with
    | some e =>
      { status := 500, message := some "Server error", errorDetail := some e,
        user := none, device_id := none, data := none, rows := none }
    | none =>
      match db.users.find? (fun u => u.email == some (email.getD "")) with
      | none => msgResp 401 "Invalid credentials"
      | some u =>
        if bcryptCompare (password.getD "") u.password then
          { status := 200, message := some "Login successful", errorDetail := none,
            user := none, device_id := some u.device_id, data := none, rows := none }
        else
          msgResp 401 "Invalid credentials"

/-- `POST /api/data` (lines 81-100), the spec operation IngestReading.  Rejects a
falsy `device_id` or any numeric field that is `undefined` (zero passes),
then inserts one row stamped `NOW()` (the `now` argument). -/
def ingestReading (db : DB) (storeErr : Option String) (now : Nat)
    (device_id : Option String)
    (temperature humidity air_quality lpg_level : Option Int) : Resp × DB :=
  if falsy device_id || temperature.isNone || humidity.isNone
      || air_quality.isNone || lpg_level.isNone then
    (msgResp 400 "Missing required fields", db)
  else
    match storeErr with
    | some _ => (msgResp 500 "Failed to store data", db)
    | none =>
      let row : SensorReading :=
        { device_id := device_id.getD "", temperature := temperature.getD 0,
          humidity := humidity.getD 0, air_quality := air_quality.getD 0,
          lpg_level := lpg_level.getD 0, timestamp := now }
      ({ status := 201, message := some "Data stored successfully",
         errorDetail := none, user := none, device_id := none,
         data := some row, rows := none },
       { db with sensor_data := db.sensor_data ++ [row] })

/-- `GET /api/data/:device_id` (lines 103-116), the spec operation ListReadings:
all rows for the device, `ORDER BY timestamp DESC`. -/
def listReadings (db : DB) (storeErr : Option String) (device_id : String) : Resp :=
  match storeErr with
  | some _ => msgResp 500 "Failed to fetch data"
  | none =>
    let rs := (db.sensor_data.filter
        (fun r => r.device_id == device_id)).mergeSort descByTimestamp
    { status := 200, message := none, errorDetail := none, user := none,
      device_id := none, data := none, rows := some rs }

/-- `GET /api/data/latest/:device_id` (lines 119-137), the spec operation
LatestReading: `ORDER BY timestamp DESC LIMIT 1`, 404 when no row
exists. -/
def latestReading (db : DB) (storeErr : Option String) (device_id : String) : Resp :=
  match storeErr with
  | some _ => msgResp 500 "Failed to fetch latest data"
  | none =>
    match (db.sensor_data.filter
        (fun r => r.device_id == device_id)).mergeSort descByTimestamp with
    | [] => msgResp 404 "No data available"
    | r :: _ =>
      { status := 200, message := none, errorDetail := none, user := none,
        device_id := none, data := some r, rows := none }

/-- `GET /api/data/history/:device_id` (lines 140-174), the spec operation
HistoryByDate.  An absent `date` is a 400; a present but unparseable
`date` makes `toISOString()` throw inside the `try`, so the catch answers
the generic 500; otherwise rows in the inclusive UTC-day window, sorted
ascending, with a message body when the result set is empty. -/
def historyByDate (db : DB) (storeErr : Option String) (device_id : String)
    (date : Option (Option Nat)) : Resp :=
  match date with
  | none => msgResp 400 "Date parameter is required"
  | some none => msgResp 500 "Failed to fetch historical data"
  | some (some t) =>
    match storeErr with
    | some _ => msgResp 500 "Failed to fetch historical data"
    | none =>
      let rs := (db.sensor_data.filter (fun r =>
          r.device_id == device_id
            && decide (startOfUTCDay t ≤ r.timestamp)
            && decide (r.timestamp ≤ endOfUTCDay t))).mergeSort ascByTimestamp
      if rs.isEmpty then
        msgResp 200 "No data available for the selected date."
      else
        { status := 200, message := none, errorDetail := none, user := none,
          device_id := none, data := none, rows := some rs }

/-- Claim C10: a HistoryByDate call whose date query parameter is present but
not parseable yields a 500 (the failed date conversion throws inside the try
block and the catch answers the generic internal error), never a 400; only a
fully absent date parameter yields 400.  Holds for every store state and
independently of store failures. -/
theorem historyByDate_bad_date_is_500 (db : DB) (serr : Option String) (dev : String) :
    (historyByDate db serr dev (some none)).status = 500 ∧
    (historyByDate db serr dev none).status = 400 :=
  ⟨rfl, rfl⟩

/-- Claim C5: IngestReading with a falsy device_id or any of the four numeric
fields undefined answers ValidationError 400 and leaves the store unchanged
(the full response/state pair equals the 400 response with the original
store); when the validation condition is false (in particular when numeric
fields are present with value zero), the call never answers 400. -/
theorem ingestReading_validation (db : DB) (serr : Option String) (now : Nat)
    (dev : Option String) (tv hv av lv : Option Int) :
    ((falsy dev || tv.isNone || hv.isNone || av.isNone || lv.isNone) = true →
      ingestReading db serr now dev tv hv av lv = (msgResp 400 "Missing required fields", db)) ∧
    ((falsy dev || tv.isNone || hv.isNone || av.isNone || lv.isNone) = false →
      (ingestReading db serr now dev tv hv av lv).1.status ≠ 400) := by
  constructor
  · intro hcond
    unfold ingestReading
    rw [hcond]
    rfl
  · intro hcond
    unfold ingestReading
    rw [hcond]
    cases serr <;> simp [msgResp]

theorem ingestReading_validation_witness :
    ((falsy (some "dev1") || (none : Option Int).isNone || (some (0:Int)).isNone
        || (some (0:Int)).isNone || (some (0:Int)).isNone) = true ∧
      ingestReading (DB.mk [] []) none 5 (some "dev1") none (some 0) (some 0) (some 0)
        = (msgResp 400 "Missing required fields", DB.mk [] [])) ∧
    ((falsy (some "dev1") || (some (0:Int)).isNone || (some (0:Int)).isNone
        || (some (0:Int)).isNone || (some (0:Int)).isNone) = false ∧
      (ingestReading (DB.mk [] []) none 5 (some "dev1") (some 0) (some 0) (some 0) (some 0)).1.status ≠ 400) :=
  ⟨⟨by decide, (ingestReading_validation (DB.mk [] []) none 5 (some "dev1") none (some 0) (some 0) (some 0)).1 (by decide)⟩,
   ⟨by decide, (ingestReading_validation (DB.mk [] []) none 5 (some "dev1") (some 0) (some 0) (some 0) (some 0)).2 (by decide)⟩⟩

/-- Claim C2: for a Login call with both fields present (non-falsy), whenever
no stored user both carries the given email and verifies the given password
- which covers both the "no such email" case and the "wrong password" case -
the response is exactly `msgResp 401 "Invalid credentials"`, the same status
and body in both cases, so the caller cannot distinguish them. -/
theorem login_failures_indistinguishable (db : DB) (e p : String)
    (he : e ≠ "") (hp : p ≠ "")
    (h : ∀ u ∈ db.users, u.email = some e → bcryptCompare p u.password = false) :
    login db none (some e) (some p) = msgResp 401 "Invalid credentials" := by
  unfold login
  have he' : falsy (some e) = false := by simp [falsy, he]
  have hp' : falsy (some p) = false := by simp [falsy, hp]
  rw [he', hp']
  simp only [Bool.or_self, if_neg Bool.false_ne_true]
  cases hfind : db.users.find? (fun u => u.email == some ((some e).getD "")) with
  | none => rfl
  | some u =>
    have hmem : u ∈ db.users := List.mem_of_find?_eq_some hfind
    have heq := (List.find?_eq_some.1 hfind).1
    have hem : u.email = some e := by simpa using heq
    simp [h u hmem hem]

theorem login_failures_indistinguishable_witness :
    ("a@b" ≠ "" ∧ "x" ≠ "" ∧
      (∀ u ∈ (DB.mk [User.mk "d1" (some "a@b") (bcryptHash "y" 0)] []).users,
        u.email = some "a@b" → bcryptCompare "x" u.password = false)) ∧
    login (DB.mk [User.mk "d1" (some "a@b") (bcryptHash "y" 0)] []) none (some "a@b") (some "x")
      = msgResp 401 "Invalid credentials" :=
  ⟨⟨by decide, by decide, by decide⟩,
   login_failures_indistinguishable (DB.mk [User.mk "d1" (some "a@b") (bcryptHash "y" 0)] [])
     "a@b" "x" (by decide) (by decide) (by decide)⟩

/-- Claim C7 counterexample: the Login handler violates the claim.  When the
store call fails with message "connection terminated", the 500 response body
of Login carries that detailed message in its error field (line 76 of the
source: `error: error.message`), so the detail is not kept server-side. -/
theorem login_internal_error_leaks_detail :
    (login (DB.mk [] []) (some "connection terminated") (some "e@x") (some "p")).status = 500 ∧
    (login (DB.mk [] []) (some "connection terminated") (some "e@x") (some "p")).errorDetail
      = some "connection terminated" := by
  exact ⟨rfl, rfl⟩

/-- Claim C7 amended: for every operation except Login, the 500 InternalError
response is the fixed generic message of that handler (a `msgResp`, whose
errorDetail field is none), independent of the underlying failure message;
Login alone copies the underlying failure message into its 500 body. -/
theorem internal_error_generic_except_login (db : DB) (err : String) (em : Option String)
    (pw d eml dvc : String) (now : Nat) (tv hv av lv : Int) (t : Nat)
    (hd : d ≠ "") (heml : eml ≠ "") (hpw : pw ≠ "") :
    ((updateUserCredentials db (some err) em (some pw) (some d) 0).1
        = .resp (msgResp 500 "Error updating user")) ∧
    ((adminUpsertUser db (some err) em (some pw) (some d) 0).1
        = .resp (msgResp 500 "Error processing signup")) ∧
    ((ingestReading db (some err) now (some d) (some tv) (some hv) (some av) (some lv)).1
        = msgResp 500 "Failed to store data") ∧
    (listReadings db (some err) dvc = msgResp 500 "Failed to fetch data") ∧
    (latestReading db (some err) dvc = msgResp 500 "Failed to fetch latest data") ∧
    (historyByDate db (some err) dvc (some (some t)) = msgResp 500 "Failed to fetch historical data") ∧
    ((login db (some err) (some eml) (some pw)).errorDetail = some err) := by
  refine ⟨?_, ?_, ?_, rfl, rfl, rfl, ?_⟩
  · unfold updateUserCredentials
    simp [falsy, hd]
  · unfold adminUpsertUser
    simp [falsy, hd]
  · unfold ingestReading
    simp [falsy, hd]
  · unfold login
    simp [falsy, heml, hpw]

theorem internal_error_generic_except_login_witness :
    ("d1" ≠ "" ∧ "a@b" ≠ "" ∧ "pw" ≠ "") ∧
    (listReadings (DB.mk [] []) (some "boom") "d1" = msgResp 500 "Failed to fetch data" ∧
     (login (DB.mk [] []) (some "boom") (some "a@b") (some "pw")).errorDetail = some "boom") :=
  ⟨⟨by decide, by decide, by decide⟩,
   ⟨(internal_error_generic_except_login (DB.mk [] []) "boom" none "pw" "d1" "a@b" "d1" 0 0 0 0 0 0
       (by decide) (by decide) (by decide)).2.2.2.1,
    (internal_error_generic_except_login (DB.mk [] []) "boom" none "pw" "d1" "a@b" "d1" 0 0 0 0 0 0
       (by decide) (by decide) (by decide)).2.2.2.2.2.2⟩⟩

/-- Claim C8 counterexample: a PUT /api/signup request with a well-formed
device_id but no password makes `bcrypt.hash(undefined, 10)` reject before
the try block is entered (line 28), and that rejection escapes the handler
uncaught instead of becoming an InternalError response. -/
theorem signup_missing_password_escapes :
    (updateUserCredentials (DB.mk [] []) none (some "e@x") none (some "d1") 0).1
      = .uncaught "Illegal arguments: undefined, number" := by
  rfl

/-- Claim C8 amended: every failure raised by the wrapped store call itself is
caught at the handler boundary and converted into a 500 InternalError
response, for all seven endpoints; however, the password-hashing call in
UpdateUserCredentials and AdminUpsertUser runs before the try block, so a
missing password makes it reject and that rejection escapes the handler
uncaught (regardless of the store). -/
theorem store_failures_caught_hash_escapes (db : DB) (err : String) (em : Option String)
    (serr : Option String) (pw d eml dvc : String) (now : Nat) (tv hv av lv : Int) (t : Nat)
    (hd : d ≠ "") (heml : eml ≠ "") (hpw : pw ≠ "") :
    (∃ r, (updateUserCredentials db (some err) em (some pw) (some d) 0).1 = .resp r ∧ r.status = 500) ∧
    (∃ r, (adminUpsertUser db (some err) em (some pw) (some d) 0).1 = .resp r ∧ r.status = 500) ∧
    ((login db (some err) (some eml) (some pw)).status = 500) ∧
    ((ingestReading db (some err) now (some d) (some tv) (some hv) (some av) (some lv)).1.status = 500) ∧
    ((listReadings db (some err) dvc).status = 500) ∧
    ((latestReading db (some err) dvc).status = 500) ∧
    ((historyByDate db (some err) dvc (some (some t))).status = 500) ∧
    ((updateUserCredentials db serr em none (some d) 0).1
        = .uncaught "Illegal arguments: undefined, number") ∧
    ((adminUpsertUser db serr em none (some d) 0).1
        = .uncaught "Illegal arguments: undefined, number") := by
  refine ⟨⟨msgResp 500 "Error updating user", ?_, rfl⟩,
          ⟨msgResp 500 "Error processing signup", ?_, rfl⟩, ?_, ?_, rfl, rfl, rfl, ?_, ?_⟩
  · unfold updateUserCredentials
    simp [falsy, hd]
  · unfold adminUpsertUser
    simp [falsy, hd]
  · unfold login
    simp [falsy, heml, hpw]
  · unfold ingestReading
    simp [falsy, hd, msgResp]
  · unfold updateUserCredentials
    simp [falsy, hd]
  · unfold adminUpsertUser
    simp [falsy, hd]

theorem store_failures_caught_hash_escapes_witness :
    ("d1" ≠ "" ∧ "a@b" ≠ "" ∧ "pw" ≠ "") ∧
    ((latestReading (DB.mk [] []) (some "boom") "d1").status = 500 ∧
     (updateUserCredentials (DB.mk [] []) none none none (some "d1") 0).1
        = .uncaught "Illegal arguments: undefined, number") :=
  ⟨⟨by decide, by decide, by decide⟩,
   ⟨(store_failures_caught_hash_escapes (DB.mk [] []) "boom" none none "pw" "d1" "a@b" "d1" 0 0 0 0 0 0
       (by decide) (by decide) (by decide)).2.2.2.2.2.1,
    (store_failures_caught_hash_escapes (DB.mk [] []) "boom" none none "pw" "d1" "a@b" "d1" 0 0 0 0 0 0
       (by decide) (by decide) (by decide)).2.2.2.2.2.2.2.1⟩⟩

/-- The stored serialization of a bcrypt hash is strictly longer than the
plaintext, hence never equal to it. -/
theorem bcryptHash_render_ne (p : String) (salt : Nat) :
    (bcryptHash p salt).render ≠ p := by
  intro hEq
  have hlen := congrArg String.length hEq
  simp only [HashedPw.render, bcryptHash, String.length_append] at hlen
  have h4 : ("$2b$" : String).length = 4 := rfl
  have h1 : ("$" : String).length = 1 := rfl
  rw [h4, h1] at hlen
  omega

/-- Every row of the updated users list is either an untouched old row or
carries the newly written password value. -/
theorem mem_update_users (l : List User) (em : Option String) (hp : HashedPw)
    (dev : String) (u : User)
    (hu : u ∈ l.map (fun v =>
      if v.device_id == dev then { v with email := em, password := hp } else v)) :
    u ∈ l ∨ u.password = hp := by
  obtain ⟨v, hv, hfv⟩ := List.mem_map.1 hu
  by_cases hvd : v.device_id == dev
  · right
    rw [if_pos hvd] at hfv
    rw [← hfv]
  · left
    rw [if_neg hvd] at hfv
    rw [← hfv]
    exact hv

/-- Claim C9: for every UpdateUserCredentials and AdminUpsertUser call (with a
password present), every user row the call writes carries the salted hash of
the input password, whose stored serialization is never equal to the
plaintext; Login writes nothing.  Moreover every response body built from a
User record carries a `UserSafe` value, with the password field removed, and
the Login response carries no user object at all, only the device_id. -/
theorem passwords_hashed_and_stripped (db : DB) (em : Option String) (p : String)
    (dev : Option String) (salt : Nat) (serr : Option String) :
    (∀ u ∈ (updateUserCredentials db serr em (some p) dev salt).2.users,
        u ∈ db.users ∨ u.password = bcryptHash p salt) ∧
    (∀ u ∈ (adminUpsertUser db serr em (some p) dev salt).2.users,
        u ∈ db.users ∨ u.password = bcryptHash p salt) ∧
    ((bcryptHash p salt).render ≠ p) ∧
    (∀ r, (updateUserCredentials db serr em (some p) dev salt).1 = .resp r →
        r.user = none ∨ r.user = some (UserSafe.mk (dev.getD "") em)) ∧
    (∀ r, (adminUpsertUser db serr em (some p) dev salt).1 = .resp r →
        r.user = none ∨ r.user = some (UserSafe.mk (dev.getD "") em)) ∧
    (∀ e pw, (login db serr e pw).user = none) := by
  refine ⟨?_, ?_, bcryptHash_render_ne p salt, ?_, ?_, ?_⟩
  · intro u hu
    unfold updateUserCredentials at hu
    split at hu
    · exact Or.inl hu
    · cases serr with
      | some e => exact Or.inl hu
      | none =>
        simp only at hu
        split at hu
        · exact mem_update_users _ _ _ _ _ hu
        · exact Or.inl hu
  · intro u hu
    unfold adminUpsertUser at hu
    split at hu
    · exact Or.inl hu
    · cases serr with
      | some e => exact Or.inl hu
      | none =>
        simp only at hu
        split at hu
        · exact mem_update_users _ _ _ _ _ hu
        · rcases List.mem_append.1 hu with h | h
          · exact Or.inl h
          · right
            rw [List.mem_singleton.1 h]
  · intro r hr
    unfold updateUserCredentials at hr
    split at hr
    · cases hr
      exact Or.inl rfl
    · cases serr with
      | some e =>
        cases hr
        exact Or.inl rfl
      | none =>
        simp only at hr
        split at hr
        · cases hr
          exact Or.inr rfl
        · cases hr
          exact Or.inl rfl
  · intro r hr
    unfold adminUpsertUser at hr
    split at hr
    · cases hr
      exact Or.inl rfl
    · cases serr with
      | some e =>
        cases hr
        exact Or.inl rfl
      | none =>
        simp only at hr
        cases hr
        exact Or.inr rfl
  · intro e pw
    unfold login
    split
    · rfl
    · cases serr with
      | some err => rfl
      | none =>
        simp only
        split
        · rfl
        · split <;> rfl

theorem passwords_hashed_and_stripped_witness :
    (bcryptHash "secret" 9).render ≠ "secret" :=
  (passwords_hashed_and_stripped (DB.mk [] []) (some "a@b") "secret" (some "d1") 9 none).2.2.1

/-- The DESC comparator is transitive. -/
theorem descByTimestamp_trans (a b c : SensorReading)
    (h1 : descByTimestamp a b = true) (h2 : descByTimestamp b c = true) :
    descByTimestamp a c = true := by
  simp only [descByTimestamp, decide_eq_true_eq] at *
  omega

/-- The DESC comparator is total. -/
theorem descByTimestamp_total (a b : SensorReading) :
    (descByTimestamp a b || descByTimestamp b a) = true := by
  simp only [descByTimestamp, Bool.or_eq_true, decide_eq_true_eq]
  omega

/-- The ASC comparator is transitive. -/
theorem ascByTimestamp_trans (a b c : SensorReading)
    (h1 : ascByTimestamp a b = true) (h2 : ascByTimestamp b c = true) :
    ascByTimestamp a c = true := by
  simp only [ascByTimestamp, decide_eq_true_eq] at *
  omega

/-- The ASC comparator is total. -/
theorem ascByTimestamp_total (a b : SensorReading) :
    (ascByTimestamp a b || ascByTimestamp b a) = true := by
  simp only [ascByTimestamp, Bool.or_eq_true, decide_eq_true_eq]
  omega

/-- Claim C4: for every device_id, the rows ListReadings answers are in
non-increasing timestamp order (most recent first), and for every device_id
and date parameter the rows HistoryByDate answers are in non-decreasing
timestamp order (oldest first). -/
theorem readings_ordered (db : DB) (dev : String) (date : Option (Option Nat)) :
    ((listReadings db none dev).rows.getD []).Pairwise
      (fun a b => b.timestamp ≤ a.timestamp) ∧
    ((historyByDate db none dev date).rows.getD []).Pairwise
      (fun a b => a.timestamp ≤ b.timestamp) := by
  constructor
  · unfold listReadings
    simp only [Option.getD_some]
    refine List.Pairwise.imp ?_
      (List.sorted_mergeSort descByTimestamp_trans descByTimestamp_total
        (db.sensor_data.filter (fun r => r.device_id == dev)))
    intro a b h
    simpa [descByTimestamp] using h
  · unfold historyByDate
    match date with
    | none => simp [msgResp]
    | some none => simp [msgResp]
    | some (some t) =>
      simp only
      split
      · simp [msgResp]
      · simp only [Option.getD_some]
        refine List.Pairwise.imp ?_
          (List.sorted_mergeSort ascByTimestamp_trans ascByTimestamp_total _)
        intro a b h
        simpa [ascByTimestamp] using h

/-- Claim C3: for a calendar date, i.e. an instant `t` aligned to a UTC day
boundary, HistoryByDate returns exactly the stored readings of the device
whose timestamp lies in the inclusive window [t, t + 86399999] - the window
[date 00:00:00.000Z, date 23:59:59.999Z] - as a permutation of the filtered
store; a reading outside the window by even one millisecond is excluded by
the membership equivalence. -/
theorem historyByDate_window (db : DB) (dev : String) (t : Nat) (r : SensorReading)
    (ht : t % 86400000 = 0) :
    ((historyByDate db none dev (some (some t))).rows.getD []).Perm
      (db.sensor_data.filter (fun x => x.device_id == dev
        && decide (t ≤ x.timestamp) && decide (x.timestamp ≤ t + 86399999))) ∧
    (r ∈ (historyByDate db none dev (some (some t))).rows.getD [] ↔
      (r ∈ db.sensor_data ∧ r.device_id = dev ∧ t ≤ r.timestamp
        ∧ r.timestamp ≤ t + 86399999)) := by
  have hs : startOfUTCDay t = t := by
    unfold startOfUTCDay
    omega
  have he : endOfUTCDay t = t + 86399999 := by
    unfold endOfUTCDay
    rw [hs]
  have hmemf : ∀ x : SensorReading,
      x ∈ db.sensor_data.filter (fun x => x.device_id == dev
        && decide (t ≤ x.timestamp) && decide (x.timestamp ≤ t + 86399999)) ↔
      (x ∈ db.sensor_data ∧ x.device_id = dev ∧ t ≤ x.timestamp
        ∧ x.timestamp ≤ t + 86399999) := by
    intro x
    simp [List.mem_filter, and_assoc]
  unfold historyByDate
  simp only [hs, he]
  split
  · next hempty =>
    have hms : (db.sensor_data.filter (fun x => x.device_id == dev
        && decide (t ≤ x.timestamp)
        && decide (x.timestamp ≤ t + 86399999))).mergeSort ascByTimestamp = [] :=
      List.isEmpty_iff.1 hempty
    have hperm := List.mergeSort_perm (db.sensor_data.filter (fun x => x.device_id == dev
        && decide (t ≤ x.timestamp) && decide (x.timestamp ≤ t + 86399999))) ascByTimestamp
    rw [hms] at hperm
    have hnil := List.nil_perm.1 hperm
    constructor
    · rw [← hnil]
      rfl
    · simp only [msgResp, Option.getD_none, List.not_mem_nil, false_iff]
      intro hcontra
      have : r ∈ (db.sensor_data.filter (fun x => x.device_id == dev
          && decide (t ≤ x.timestamp) && decide (x.timestamp ≤ t + 86399999))) :=
        (hmemf r).2 ⟨hcontra.1, hcontra.2.1, hcontra.2.2.1, hcontra.2.2.2⟩
      rw [hnil] at this
      exact List.not_mem_nil r this
  · constructor
    · exact List.mergeSort_perm _ ascByTimestamp
    · rw [Option.getD_some, List.mem_mergeSort]
      exact hmemf r

theorem historyByDate_window_witness :
    (1704067200000 % 86400000 = 0) ∧
    (((historyByDate (DB.mk [] [SensorReading.mk "d1" 1 2 3 4 1704067200500])
        none "d1" (some (some 1704067200000))).rows.getD []).Perm
      ((DB.mk [] [SensorReading.mk "d1" 1 2 3 4 1704067200500]).sensor_data.filter
        (fun x => x.device_id == "d1" && decide (1704067200000 ≤ x.timestamp)
          && decide (x.timestamp ≤ 1704067200000 + 86399999))) ∧
    (SensorReading.mk "d1" 1 2 3 4 1704067200500 ∈
        (historyByDate (DB.mk [] [SensorReading.mk "d1" 1 2 3 4 1704067200500])
          none "d1" (some (some 1704067200000))).rows.getD [] ↔
      (SensorReading.mk "d1" 1 2 3 4 1704067200500 ∈
          (DB.mk [] [SensorReading.mk "d1" 1 2 3 4 1704067200500]).sensor_data ∧
        (SensorReading.mk "d1" 1 2 3 4 1704067200500).device_id = "d1" ∧
        1704067200000 ≤ (SensorReading.mk "d1" 1 2 3 4 1704067200500).timestamp ∧
        (SensorReading.mk "d1" 1 2 3 4 1704067200500).timestamp ≤ 1704067200000 + 86399999))) :=
  ⟨by decide,
   historyByDate_window (DB.mk [] [SensorReading.mk "d1" 1 2 3 4 1704067200500])
     "d1" 1704067200000 (SensorReading.mk "d1" 1 2 3 4 1704067200500) (by decide)⟩

/-- A row with a strictly larger timestamp than every other row sorts to the
front under the DESC comparator. -/
theorem mergeSort_desc_cons_max (l : List SensorReading) (r : SensorReading)
    (hmax : ∀ x ∈ l, x.timestamp < r.timestamp) :
    ∃ rest, (l ++ [r]).mergeSort descByTimestamp = r :: rest := by
  have hperm := List.mergeSort_perm (l ++ [r]) descByTimestamp
  have hsorted := List.sorted_mergeSort descByTimestamp_trans descByTimestamp_total (l ++ [r])
  cases hms : (l ++ [r]).mergeSort descByTimestamp with
  | nil =>
    rw [hms] at hperm
    have := List.nil_perm.1 hperm
    simp at this
  | cons x rest =>
    have hrmem : r ∈ x :: rest := by
      rw [← hms, List.mem_mergeSort]
      simp
    rcases List.mem_cons.1 hrmem with hxr | hrt
    · exact ⟨rest, by rw [hxr]⟩
    · rw [hms] at hsorted
      have hxr : descByTimestamp x r = true :=
        (List.pairwise_cons.1 hsorted).1 r hrt
      have hxmem : x ∈ l ++ [r] := by
        have hxms : x ∈ (l ++ [r]).mergeSort descByTimestamp := by
          rw [hms]
          exact List.mem_cons_self x rest
        exact List.mem_mergeSort.1 hxms
    -- x is either an old row (contradiction with hmax) or r itself
      rcases List.mem_append.1 hxmem with hxl | hxsing
      · have h1 := hmax x hxl
        simp only [descByTimestamp, decide_eq_true_eq] at hxr
        omega
      · exact ⟨rest, by rw [List.mem_singleton.1 hxsing]⟩

/-- Claim C6: a successful IngestReading (fresh server clock: every stored
reading of the device is strictly older) immediately followed by
LatestReading for the same device returns exactly the just-ingested values;
and LatestReading answers NotFoundError 404 exactly when zero readings are
stored for the device. -/
theorem ingest_then_latest (db : DB) (now : Nat) (d : String) (tv hv av lv : Int)
    (hd : d ≠ "")
    (hnow : ∀ r ∈ db.sensor_data, r.device_id = d → r.timestamp < now) :
    (latestReading (ingestReading db none now (some d) (some tv) (some hv) (some av) (some lv)).2
        none d).data = some (SensorReading.mk d tv hv av lv now) ∧
    (∀ (db' : DB) (dev : String),
      latestReading db' none dev = msgResp 404 "No data available" ↔
        db'.sensor_data.filter (fun r => r.device_id == dev) = []) := by
  constructor
  · have hdb2 : (ingestReading db none now (some d) (some tv) (some hv) (some av) (some lv)).2
        = DB.mk db.users (db.sensor_data ++ [SensorReading.mk d tv hv av lv now]) := by
      unfold ingestReading
      simp [falsy, hd]
    rw [hdb2]
    unfold latestReading
    simp only
    have hfilter : (db.sensor_data ++ [SensorReading.mk d tv hv av lv now]).filter
        (fun r => r.device_id == d)
        = db.sensor_data.filter (fun r => r.device_id == d)
            ++ [SensorReading.mk d tv hv av lv now] := by
      rw [List.filter_append]
      simp
    rw [hfilter]
    obtain ⟨rest, hrest⟩ := mergeSort_desc_cons_max
      (db.sensor_data.filter (fun r => r.device_id == d))
      (SensorReading.mk d tv hv av lv now)
      (by
        intro x hx
        have hxmem := List.mem_filter.1 hx
        exact hnow x hxmem.1 (by simpa using hxmem.2))
    rw [hrest]
  · intro db' dev
    unfold latestReading
    simp only
    constructor
    · intro h404
      cases hms : (db'.sensor_data.filter (fun r => r.device_id == dev)).mergeSort descByTimestamp with
      | nil =>
        have hperm := List.mergeSort_perm (db'.sensor_data.filter (fun r => r.device_id == dev)) descByTimestamp
        rw [hms] at hperm
        exact (List.nil_perm.1 hperm)
      | cons x rest =>
        rw [hms] at h404
        simp [msgResp] at h404
    · intro hnil
      rw [hnil]
      have : ([] : List SensorReading).mergeSort descByTimestamp = [] := by
        simp
      rw [this]

theorem ingest_then_latest_witness :
    ("d1" ≠ "" ∧
      (∀ r ∈ (DB.mk [] [SensorReading.mk "d1" 1 1 1 1 50]).sensor_data,
        r.device_id = "d1" → r.timestamp < 60)) ∧
    ((latestReading (ingestReading (DB.mk [] [SensorReading.mk "d1" 1 1 1 1 50])
          none 60 (some "d1") (some 7) (some 8) (some 9) (some 10)).2 none "d1").data
        = some (SensorReading.mk "d1" 7 8 9 10 60) ∧
      (∀ (db' : DB) (dev : String),
        latestReading db' none dev = msgResp 404 "No data available" ↔
          db'.sensor_data.filter (fun r => r.device_id == dev) = [])) :=
  ⟨⟨by decide, by decide⟩,
   ingest_then_latest (DB.mk [] [SensorReading.mk "d1" 1 1 1 1 50]) 60 "d1" 7 8 9 10
     (by decide) (by decide)⟩

/-- Claim C1 counterexample: with a store already holding a user (device d1,
email e@x), AdminUpsertUser(email=e@x, password=p2, device_id=d2) followed by
Login(e@x, p2) does not succeed: Login selects users by email without ORDER
BY and reads the first row, which is the d1 row, whose password does not
verify, so the call answers 401 and carries no device_id, not d2. -/
theorem adminUpsert_login_duplicate_email_fails :
    (login (adminUpsertUser
        (DB.mk [User.mk "d1" (some "e@x") (bcryptHash "p1" 7)] [])
        none (some "e@x") (some "p2") (some "d2") 3).2
      none (some "e@x") (some "p2")).status = 401 ∧
    (login (adminUpsertUser
        (DB.mk [User.mk "d1" (some "e@x") (bcryptHash "p1" 7)] [])
        none (some "e@x") (some "p2") (some "d2") 3).2
      none (some "e@x") (some "p2")).device_id = none := by
  exact ⟨by decide, by decide⟩

/-- After the conflict-update branch of the upsert, the first user matching
the email is the row keyed on the device, provided every row with that email
already had that device_id. -/
theorem find_email_after_update (l : List User) (e d : String) (em : Option String)
    (hp : HashedPw)
    (hU : ∀ u ∈ l, u.email = some e → u.device_id = d)
    (hAny : l.any (fun u => u.device_id == d) = true) (hem : em = some e) :
    (l.map (fun u => if u.device_id == d then { u with email := em, password := hp } else u)).find?
        (fun u => u.email == some e)
      = some (User.mk d em hp) := by
  induction l with
  | nil => simp at hAny
  | cons u us ih =>
    by_cases hud : u.device_id = d
    · rw [List.map_cons, if_pos (by simp [hud]), List.find?_cons_of_pos _ (by simp [hem])]
      rw [hud]
    · have hue : u.email ≠ some e := fun h => hud (hU u (List.mem_cons_self u us) h)
      rw [List.map_cons, if_neg (by simp [hud]), List.find?_cons_of_neg _ (by simp [hue])]
      refine ih (fun v hv hve => hU v (List.mem_cons_of_mem u hv) hve) ?_
      rcases List.any_eq_true.1 hAny with ⟨v, hv, hvd⟩
      rcases List.mem_cons.1 hv with rfl | hvus
      · exact absurd (by simpa using hvd) hud
      · exact List.any_eq_true.2 ⟨v, hvus, hvd⟩

/-- After the insert branch of the upsert, the first user matching the email
is the appended row, provided every row with that email already had that
device_id (vacuously: no row with the device existed). -/
theorem find_email_after_append (l : List User) (e d : String) (em : Option String)
    (hp : HashedPw)
    (hU : ∀ u ∈ l, u.email = some e → u.device_id = d)
    (hAny : l.any (fun u => u.device_id == d) = false) (hem : em = some e) :
    (l ++ [User.mk d em hp]).find? (fun u => u.email == some e)
      = some (User.mk d em hp) := by
  induction l with
  | nil => simp [List.find?_cons_of_pos, hem]
  | cons u us ih =>
    have hAny' := hAny
    rw [List.any_cons, Bool.or_eq_false_iff] at hAny'
    have hud : u.device_id ≠ d := by simpa using hAny'.1
    have hue : u.email ≠ some e := fun h => hud (hU u (List.mem_cons_self u us) h)
    rw [List.cons_append, List.find?_cons_of_neg _ (by simp [hue])]
    exact ih (fun v hv hve => hU v (List.mem_cons_of_mem u hv) hve) hAny'.2

/-- Claim C1 amended: for every non-empty email E, non-empty password P and
non-empty device_id D, and every store in which each user row carrying email
E already has device_id D (in particular an empty store), AdminUpsertUser
with (E, P, D) followed by Login with (E, P) succeeds with status 200 and
the response carries device_id = D. -/
theorem adminUpsert_then_login (db : DB) (e p d : String) (salt : Nat)
    (he : e ≠ "") (hp : p ≠ "") (hd : d ≠ "")
    (hU : ∀ u ∈ db.users, u.email = some e → u.device_id = d) :
    login (adminUpsertUser db none (some e) (some p) (some d) salt).2
        none (some e) (some p)
      = { status := 200, message := some "Login successful", errorDetail := none,
          user := none, device_id := some d, data := none, rows := none } := by
  have hdb2 : (adminUpsertUser db none (some e) (some p) (some d) salt).2.users
      = if db.users.any (fun u => u.device_id == d) then
          db.users.map (fun u => if u.device_id == d then
            { u with email := some e, password := bcryptHash p salt } else u)
        else db.users ++ [User.mk d (some e) (bcryptHash p salt)] := by
    unfold adminUpsertUser
    simp [falsy, hd]
  have hfind : (adminUpsertUser db none (some e) (some p) (some d) salt).2.users.find?
      (fun u => u.email == some e) = some (User.mk d (some e) (bcryptHash p salt)) := by
    rw [hdb2]
    by_cases hAny : db.users.any (fun u => u.device_id == d) = true
    · rw [if_pos hAny]
      exact find_email_after_update db.users e d (some e) (bcryptHash p salt) hU hAny rfl
    · rw [if_neg hAny]
      exact find_email_after_append db.users e d (some e) (bcryptHash p salt) hU
        (Bool.not_eq_true _ ▸ hAny) rfl
  unfold login
  rw [if_neg (by simp [falsy, he, hp])]
  simp only [Option.getD_some]
  rw [hfind]
  have hcmp : bcryptCompare p (bcryptHash p salt) = true := by
    simp [bcryptCompare, bcryptHash]
  simp [hcmp]

theorem adminUpsert_then_login_witness :
    ("e@x" ≠ "" ∧ "p2" ≠ "" ∧ "d2" ≠ "" ∧
      (∀ u ∈ (DB.mk [] []).users, u.email = some "e@x" → u.device_id = "d2")) ∧
    login (adminUpsertUser (DB.mk [] []) none (some "e@x") (some "p2") (some "d2") 3).2
        none (some "e@x") (some "p2")
      = { status := 200, message := some "Login successful", errorDetail := none,
          user := none, device_id := some "d2", data := none, rows := none } :=
  ⟨⟨by decide, by decide, by decide, by decide⟩,
   adminUpsert_then_login (DB.mk [] []) "e@x" "p2" "d2" 3
     (by decide) (by decide) (by decide) (by decide)⟩
